import Mathlib

/-!
Shallow embedding of `src/infra_validation_engine/core/__init__.py`
(simple_grid_infra_validation_engine): the Check lifecycle (`InfraTest`),
the two Group flavours (`Executor` and `Stage`) and their outcome
aggregation, together with theorems settling the spec's claims.

Conventions of the embedding:
- An exception is modelled by its `message` string (the code only ever
  reads `ex.message` and `traceback.format_exc()`).
- The behaviour of a concrete subclass (its overridden `run`, `fail`,
  and the `warn`/`message` attributes it sets while running) is a
  `CheckBehavior` record; the mutable fields of an `InfraTest` instance
  are an `InfraTestState` record.
- Python dict keys that may be absent are `Option` fields.
-/

namespace InfraValidation

/-- Outcome of a concrete check's `run()`: a normal boolean return, or a
raised exception carrying a message. -/
inductive RunOutcome where
  | ok (passed : Bool)
  | fault (message : String)
  deriving Repr, DecidableEq

/-- Outcome of a concrete check's `fail()`: normal return or a raised
exception carrying a message. -/
inductive FailOutcome where
  | ok
  | fault (message : String)
  deriving Repr, DecidableEq

/-- The behaviour of a concrete `InfraTest` subclass: its identity
attributes and what its `run()`/`fail()` do, including the `warn` flag
and `message` attribute the concrete `run()` leaves on `self`. -/
structure CheckBehavior where
  name : String
  description : String
  fqdn : String
  runOutcome : RunOutcome
  failOutcome : FailOutcome
  warn : Bool
  message : Option String
  deriving Repr, DecidableEq

/-- A per-check report dict: `{'name': ..., 'description': ..., 'result': ...}`
plus the optionally-added `message`, `error` and `trace` keys. -/
structure CheckReport where
  name : String
  description : String
  result : String
  message : Option String := none
  error : Option String := none
  trace : Option String := none
  deriving Repr, DecidableEq

/-- Model of `traceback.format_exc()` for an exception with the given
message: some trace string determined by the exception. -/
def format_exc (message : String) : String :=
  String.append "Traceback (most recent call last): " message

/-- Mutable fields of an `InfraTest` instance (`InfraTest.__init__`,
lines 50-63). -/
structure InfraTestState where
  host : String
  name : String
  description : String
  fqdn : String
  rc : Int
  err : Option String
  out : Option String
  message : Option String
  warn : Bool
  report : CheckReport
  exit_code : Nat
  deriving Repr, DecidableEq

/-- `InfraTest.__init__(name, description, host, fqdn)` (lines 50-63):
`rc = -1`, `report = {'name', 'description', 'result': 'fail'}`,
`exit_code = 0`. -/
def InfraTest.init (name description host fqdn : String) : InfraTestState :=
  { host := host, name := name, description := description, fqdn := fqdn,
    rc := -1, err := none, out := none, message := none, warn := false,
    report := { name := name, description := description, result := "fail" },
    exit_code := 0 }

/-- Lines 107-109: `if self.message is not None: report['message'] = self.message`
(the logging call has no effect on the data). -/
def attach_message (message : Option String) (r : CheckReport) : CheckReport :=
  match message with
  | none => r
  | some m => { r with message := some m }

/-- The `try`-guarded body of `InfraTest.execute` (lines 79-106): dispatch
on what `run()` did, with the inner fault boundary around `fail()` and the
outer one around `run()`.  Returns the updated state and whether `fail()`
was invoked. -/
def InfraTest.runPhase (b : CheckBehavior) (s : InfraTestState) :
    InfraTestState × Bool :=
  match b.runOutcome with
  | RunOutcome.ok true =>
      let s := if s.warn then { s with exit_code := 3 } else s
      ({ s with report := { s.report with result := "pass" } }, false)
  | RunOutcome.ok false =>
      let s := { s with exit_code := 1 }
      match b.failOutcome with
      | FailOutcome.ok => (s, true)
      | FailOutcome.fault m =>
          ({ s with report := { s.report with error := some m, trace := some (format_exc m) } }, true)
  | RunOutcome.fault m =>
      ({ s with exit_code := 1, report := { s.report with result := "exec_fail", error := some m, trace := some (format_exc m) } }, false)

/-- `InfraTest.execute` (lines 76-109).  Running the concrete `run()` also
deposits the subclass's `warn`/`message` attributes on `self`, modelled by
copying them from the behaviour before dispatching; afterwards a non-`None`
`message` is attached to the report. -/
def InfraTest.execute (b : CheckBehavior) (s0 : InfraTestState) :
    InfraTestState × Bool :=
  let p := InfraTest.runPhase b { s0 with warn := b.warn, message := b.message }
  ({ p.1 with report := attach_message p.1.message p.1.report }, p.2)

/-- The aggregate report dict of an `Executor` (`{"executor_name": name}` at
construction; `result`, `error`, `trace`, `reports` keys added later). -/
structure ExecutorReport where
  executor_name : String
  result : Option String := none
  error : Option String := none
  trace : Option String := none
  reports : Option (List CheckReport) := none
  deriving Repr, DecidableEq

/-- Mutable fields of an `Executor` instance. -/
structure ExecutorState where
  name : String
  report : ExecutorReport
  infra_tests : List InfraTestState
  exit_code : Nat
  hard_error_pre_condition : Bool
  deriving Repr, DecidableEq

/-- `Executor.__init__(name)` (lines 120-126): empty test list,
`exit_code = 0`, `hard_error_pre_condition = True`. -/
def Executor.init (name : String) : ExecutorState :=
  { name := name, report := { executor_name := name }, infra_tests := [],
    exit_code := 0, hard_error_pre_condition := true }

/-- `Executor.register_infra_test` (lines 128-130): append to the list. -/
def Executor.register_infra_test (s : ExecutorState) (t : InfraTestState) :
    ExecutorState :=
  { s with infra_tests := s.infra_tests ++ [t] }

/-- A freshly constructed executor with the given tests registered in
order. -/
def mkExecutor (name : String) (tests : List InfraTestState) : ExecutorState :=
  tests.foldl Executor.register_infra_test (Executor.init name)

/-- Outcome of the abstract `pre_condition()`: normal return, a raised
`PreConditionNotSatisfiedError`, or a raised exception of any other type. -/
inductive PreOutcome where
  | ok
  | precondFault (message : String)
  | otherFault (message : String)
  deriving Repr, DecidableEq

/-- `Executor.run` (lines 137-143): only logs the registered test names;
it mutates nothing. -/
def Executor.run (s : ExecutorState) : ExecutorState :=
  s

/-- `Executor.post_process` (lines 145-158): collect the tests' reports,
then aggregate their exit codes with `1` taking precedence over `3`. -/
def Executor.post_process (s : ExecutorState) : ExecutorState :=
  let test_reports := s.infra_tests.map (fun t => t.report)
  let s := { s with report := { s.report with reports := some test_reports } }
  let exit_codes := s.infra_tests.map (fun t => t.exit_code)
  if exit_codes.contains 1 then
    { s with exit_code := 1, report := { s.report with result := some "fail" } }
  else if exit_codes.contains 3 then
    { s with exit_code := 3, report := { s.report with result := some "warning" } }
  else
    { s with report := { s.report with result := some "pass" } }

/-- `Executor.execute` (lines 160-179): a `PreConditionNotSatisfiedError`
from `pre_condition()` is caught; with the hard-error flag set the method
records `exec_fail` and returns early.  Any other exception escapes
(`Except.error`). -/
def Executor.execute (pre : PreOutcome) (s : ExecutorState) :
    Except String ExecutorState :=
  match pre with
  | PreOutcome.ok => Except.ok (Executor.post_process (Executor.run s))
  | PreOutcome.precondFault m =>
      if s.hard_error_pre_condition then
        Except.ok { s with report := { s.report with result := some "exec_fail", error := some m, trace := some (format_exc m) } }
      else
        Except.ok (Executor.post_process (Executor.run s))
  | PreOutcome.otherFault m => Except.error m

/-- One iteration of the `Stage.execute` loop body before the `message`
attachment (lines 213-239): builds the local per-test report and updates
the stage-level `exit_code` variable. -/
def Stage.runPhase (exit_code : Nat) (t : CheckBehavior) : Nat × CheckReport :=
  let report : CheckReport :=
    { name := t.name, description := t.description, result := "fail" }
  match t.runOutcome with
  | RunOutcome.ok true =>
      let exit_code := if t.warn then 3 else exit_code
      (exit_code, { report with result := "pass" })
  | RunOutcome.ok false =>
      match t.failOutcome with
      | FailOutcome.ok => (1, report)
      | FailOutcome.fault m =>
          (1, { report with error := some m, trace := some (format_exc m) })
  | RunOutcome.fault m =>
      (1, { report with result := "exec_fail", error := some m, trace := some (format_exc m) })

/-- One full iteration of the `Stage.execute` loop (lines 213-243),
including the `message` attachment of lines 240-242. -/
def Stage.processTest (exit_code : Nat) (t : CheckBehavior) : Nat × CheckReport :=
  ((Stage.runPhase exit_code t).1,
   attach_message t.message (Stage.runPhase exit_code t).2)

/-- The `for test in self.infra_tests` loop of `Stage.execute`, threading
the `exit_code` variable and accumulating the `reports` list. -/
def Stage.executeLoop (exit_code : Nat) :
    List CheckBehavior → Nat × List CheckReport
  | [] => (exit_code, [])
  | t :: ts =>
      ((Stage.executeLoop (Stage.processTest exit_code t).1 ts).1,
       (Stage.processTest exit_code t).2 :: (Stage.executeLoop (Stage.processTest exit_code t).1 ts).2)

/-- `Stage.execute` (lines 199-245): `exit_code` starts at `0`; the method
returns the final `exit_code` and (via the api log) the reports list. -/
def Stage.execute (tests : List CheckBehavior) : Nat × List CheckReport :=
  Stage.executeLoop 0 tests

/-! ### Helper lemmas -/

/-- Folding `register_infra_test` appends the registered tests and leaves
every other field alone. -/
theorem foldl_register_infra_test (ts : List InfraTestState) (s : ExecutorState) :
    ts.foldl Executor.register_infra_test s = { s with infra_tests := s.infra_tests ++ ts } := by
  induction ts generalizing s with
  | nil => simp
  | cons t ts ih =>
      rw [List.foldl_cons, ih]
      simp [Executor.register_infra_test]

/-- A freshly built executor: name set, bare report, the given tests,
exit code `0`, hard-error flag `True`. -/
theorem mkExecutor_eq (name : String) (tests : List InfraTestState) :
    mkExecutor name tests =
      { name := name, report := { executor_name := name }, infra_tests := tests,
        exit_code := 0, hard_error_pre_condition := true } := by
  unfold mkExecutor Executor.init
  rw [foldl_register_infra_test]
  rfl

/-- `post_process` never touches the registered test list. -/
theorem Executor.post_process_infra_tests (s : ExecutorState) :
    (Executor.post_process s).infra_tests = s.infra_tests := by
  unfold Executor.post_process
  dsimp only
  split_ifs <;> rfl

/-- `post_process` either leaves the exit code alone or assigns `1` or `3`. -/
theorem Executor.post_process_exit_code (s : ExecutorState) :
    (Executor.post_process s).exit_code = s.exit_code ∨
    (Executor.post_process s).exit_code = 1 ∨
    (Executor.post_process s).exit_code = 3 := by
  unfold Executor.post_process
  dsimp only
  split_ifs
  · exact Or.inr (Or.inl rfl)
  · exact Or.inr (Or.inr rfl)
  · exact Or.inl rfl

/-- The per-test report built by one Stage loop iteration does not depend
on the incoming stage-level exit code. -/
theorem Stage.runPhase_snd_indep (ec ec2 : Nat) (t : CheckBehavior) :
    (Stage.runPhase ec t).2 = (Stage.runPhase ec2 t).2 := by
  rcases t with ⟨n, d, fq, ro, fo, w, m⟩
  cases ro with
  | ok passed => cases passed <;> cases fo <;> rfl
  | fault m2 => rfl

/-- Same independence holds after the `message` attachment. -/
theorem Stage.processTest_snd_indep (ec ec2 : Nat) (t : CheckBehavior) :
    (Stage.processTest ec t).2 = (Stage.processTest ec2 t).2 := by
  unfold Stage.processTest
  rw [Stage.runPhase_snd_indep ec ec2 t]

/-- The Stage report list does not depend on the incoming exit code: each
iteration's report is computed from that test alone. -/
theorem Stage.executeLoop_snd_indep (ts : List CheckBehavior) (ec ec2 : Nat) :
    (Stage.executeLoop ec ts).2 = (Stage.executeLoop ec2 ts).2 := by
  induction ts generalizing ec ec2 with
  | nil => rfl
  | cons t ts ih =>
      show (Stage.processTest ec t).2 :: (Stage.executeLoop (Stage.processTest ec t).1 ts).2 =
        (Stage.processTest ec2 t).2 :: (Stage.executeLoop (Stage.processTest ec2 t).1 ts).2
      rw [Stage.processTest_snd_indep ec ec2 t,
          ih (Stage.processTest ec t).1 (Stage.processTest ec2 t).1]

/-- The report list of a Stage run decomposes per test: the head test's
report followed by exactly the reports the remaining tests would produce
on their own. -/
theorem Stage.execute_cons_reports (t : CheckBehavior) (ts : List CheckBehavior) :
    (Stage.execute (t :: ts)).2 = (Stage.processTest 0 t).2 :: (Stage.execute ts).2 := by
  show (Stage.processTest 0 t).2 :: (Stage.executeLoop (Stage.processTest 0 t).1 ts).2 =
    (Stage.processTest 0 t).2 :: (Stage.executeLoop 0 ts).2
  rw [Stage.executeLoop_snd_indep ts (Stage.processTest 0 t).1 0]

/-- One Stage loop iteration maps an exit code in `{0,1,3}` (or the
incoming one) to the same set. -/
theorem Stage.processTest_fst_cases (ec : Nat) (t : CheckBehavior) :
    (Stage.processTest ec t).1 = ec ∨ (Stage.processTest ec t).1 = 1 ∨
    (Stage.processTest ec t).1 = 3 := by
  rcases t with ⟨n, d, fq, ro, fo, w, m⟩
  cases ro with
  | ok passed =>
      cases passed
      · cases fo <;> exact Or.inr (Or.inl rfl)
      · cases w
        · exact Or.inl rfl
        · exact Or.inr (Or.inr rfl)
  | fault m2 => exact Or.inr (Or.inl rfl)

/-- The stage-level exit code stays in `{0,1,3}` throughout the loop. -/
theorem Stage.executeLoop_fst_mem (ts : List CheckBehavior) (ec : Nat)
    (h : ec = 0 ∨ ec = 1 ∨ ec = 3) :
    (Stage.executeLoop ec ts).1 = 0 ∨ (Stage.executeLoop ec ts).1 = 1 ∨
    (Stage.executeLoop ec ts).1 = 3 := by
  induction ts generalizing ec with
  | nil => exact h
  | cons t ts ih =>
      show (Stage.executeLoop (Stage.processTest ec t).1 ts).1 = 0 ∨
        (Stage.executeLoop (Stage.processTest ec t).1 ts).1 = 1 ∨
        (Stage.executeLoop (Stage.processTest ec t).1 ts).1 = 3
      apply ih
      rcases Stage.processTest_fst_cases ec t with h1 | h1 | h1
      · rw [h1]; exact h
      · rw [h1]; exact Or.inr (Or.inl rfl)
      · rw [h1]; exact Or.inr (Or.inr rfl)

/-! ### Claim theorems -/

/-- Claim C3: for an Executor whose `pre_condition` raises the
precondition-not-satisfied fault while the hard-error flag is at its
default `True`, `execute` stops immediately: the aggregate result becomes
`exec_fail`, the fault's message and a trace are recorded, no per-check
report list is produced (`reports` key absent), the registered tests are
untouched, and nothing else of the state changes. -/
theorem C3_precondition_fatal_short_circuit (n m : String)
    (tests : List InfraTestState) :
    Executor.execute (PreOutcome.precondFault m) (mkExecutor n tests) =
      Except.ok { name := n, report := { executor_name := n, result := some "exec_fail", error := some m, trace := some (format_exc m), reports := none }, infra_tests := tests, exit_code := 0, hard_error_pre_condition := true } := by
  rw [mkExecutor_eq]
  rfl

/-- Claim C9: an exception of any type other than the designated
precondition-not-satisfied fault raised by `pre_condition` is not caught
by `Executor.execute` and propagates to the caller, while the designated
fault kind is recovered at the group boundary. -/
theorem C9_only_precondition_fault_recovered (n m : String)
    (tests : List InfraTestState) :
    (Executor.execute (PreOutcome.otherFault m) (mkExecutor n tests) =
      Except.error m) ∧
    (match Executor.execute (PreOutcome.precondFault m) (mkExecutor n tests) with
     | Except.ok _ => True
     | Except.error _ => False) := by
  refine ⟨rfl, ?_⟩
  rw [mkExecutor_eq]
  trivial

/-- Claim C10: on the fatal-precondition path the Executor's `exit_code`
field is never assigned — it stays at its initial `0` even though the
aggregate report says `exec_fail`, so a driver reading only the exit code
sees success. -/
theorem C10_precondition_exit_code_stays_zero (n m : String)
    (tests : List InfraTestState) :
    match Executor.execute (PreOutcome.precondFault m) (mkExecutor n tests) with
    | Except.ok s2 => s2.exit_code = 0 ∧ s2.report.result = some "exec_fail"
    | Except.error _ => False := by
  rw [mkExecutor_eq]
  exact ⟨rfl, rfl⟩

/-- Claim C4: a check whose `run()` raises is marked `exec_fail` with exit
code `1`, the fault's message and a trace are recorded on the report, and
`fail()` is never invoked — both in `InfraTest.execute` and in the
`Stage.execute` loop body. -/
theorem C4_run_fault_exec_fail (n d h fq bn bd bf m : String)
    (fo : FailOutcome) (w : Bool) (msg : Option String) (ec : Nat) :
    ((InfraTest.execute { name := bn, description := bd, fqdn := bf, runOutcome := RunOutcome.fault m, failOutcome := fo, warn := w, message := msg } (InfraTest.init n d h fq)).1.report.result = "exec_fail" ∧
     (InfraTest.execute { name := bn, description := bd, fqdn := bf, runOutcome := RunOutcome.fault m, failOutcome := fo, warn := w, message := msg } (InfraTest.init n d h fq)).1.exit_code = 1 ∧
     (InfraTest.execute { name := bn, description := bd, fqdn := bf, runOutcome := RunOutcome.fault m, failOutcome := fo, warn := w, message := msg } (InfraTest.init n d h fq)).1.report.error = some m ∧
     (InfraTest.execute { name := bn, description := bd, fqdn := bf, runOutcome := RunOutcome.fault m, failOutcome := fo, warn := w, message := msg } (InfraTest.init n d h fq)).1.report.trace = some (format_exc m) ∧
     (InfraTest.execute { name := bn, description := bd, fqdn := bf, runOutcome := RunOutcome.fault m, failOutcome := fo, warn := w, message := msg } (InfraTest.init n d h fq)).2 = false) ∧
    ((Stage.processTest ec { name := bn, description := bd, fqdn := bf, runOutcome := RunOutcome.fault m, failOutcome := fo, warn := w, message := msg }).2.result = "exec_fail" ∧
     (Stage.processTest ec { name := bn, description := bd, fqdn := bf, runOutcome := RunOutcome.fault m, failOutcome := fo, warn := w, message := msg }).1 = 1) := by
  cases msg <;> exact ⟨⟨rfl, rfl, rfl, rfl, rfl⟩, rfl, rfl⟩

/-- Claim C5: when `run()` returns false and `fail()` then raises, the
fault is contained: the check keeps exit code `1` and report result
`fail` (not escalated to `exec_fail`), the fault's message and trace are
attached to the same report, and in a Stage the subsequent checks produce
exactly the reports they would produce on their own. -/
theorem C5_fail_fault_contained (n d h fq bn bd bf m : String) (w : Bool)
    (msg : Option String) (rest : List CheckBehavior) :
    ((InfraTest.execute { name := bn, description := bd, fqdn := bf, runOutcome := RunOutcome.ok false, failOutcome := FailOutcome.fault m, warn := w, message := msg } (InfraTest.init n d h fq)).1.exit_code = 1 ∧
     (InfraTest.execute { name := bn, description := bd, fqdn := bf, runOutcome := RunOutcome.ok false, failOutcome := FailOutcome.fault m, warn := w, message := msg } (InfraTest.init n d h fq)).1.report.result = "fail" ∧
     (InfraTest.execute { name := bn, description := bd, fqdn := bf, runOutcome := RunOutcome.ok false, failOutcome := FailOutcome.fault m, warn := w, message := msg } (InfraTest.init n d h fq)).1.report.error = some m ∧
     (InfraTest.execute { name := bn, description := bd, fqdn := bf, runOutcome := RunOutcome.ok false, failOutcome := FailOutcome.fault m, warn := w, message := msg } (InfraTest.init n d h fq)).1.report.trace = some (format_exc m) ∧
     (InfraTest.execute { name := bn, description := bd, fqdn := bf, runOutcome := RunOutcome.ok false, failOutcome := FailOutcome.fault m, warn := w, message := msg } (InfraTest.init n d h fq)).2 = true) ∧
    (Stage.execute ({ name := bn, description := bd, fqdn := bf, runOutcome := RunOutcome.ok false, failOutcome := FailOutcome.fault m, warn := w, message := msg } :: rest)).2 =
      attach_message msg { name := bn, description := bd, result := "fail", error := some m, trace := some (format_exc m) } :: (Stage.execute rest).2 := by
  refine ⟨?_, ?_⟩
  · cases msg <;> exact ⟨rfl, rfl, rfl, rfl, rfl⟩
  · rw [Stage.execute_cons_reports]
    cases msg <;> rfl

/-- Claim C7: a check whose `run()` returns true gets report result
`pass`; with the warning flag set its exit code is `3` (whatever the
message), without it the exit code is `0`. -/
theorem C7_pass_warn_exit_codes (n d h fq bn bd bf : String)
    (fo : FailOutcome) (w : Bool) (msg : Option String) :
    ((InfraTest.execute { name := bn, description := bd, fqdn := bf, runOutcome := RunOutcome.ok true, failOutcome := fo, warn := w, message := msg } (InfraTest.init n d h fq)).1.exit_code = if w then 3 else 0) ∧
    (InfraTest.execute { name := bn, description := bd, fqdn := bf, runOutcome := RunOutcome.ok true, failOutcome := fo, warn := w, message := msg } (InfraTest.init n d h fq)).1.report.result = "pass" := by
  cases w <;> cases msg <;> exact ⟨rfl, rfl⟩

/-- Claim C8: the report's `result` field starts at `fail` at construction
and after execution is always one of `pass`, `fail`, `exec_fail` — `pass`
exactly when `run()` returned true, `fail` exactly when it returned false,
`exec_fail` exactly when it raised. -/
theorem C8_report_result_invariant (n d h fq : String) (b : CheckBehavior) :
    (InfraTest.init n d h fq).report.result = "fail" ∧
    (((InfraTest.execute b (InfraTest.init n d h fq)).1.report.result = "pass" ∧ b.runOutcome = RunOutcome.ok true) ∨
     ((InfraTest.execute b (InfraTest.init n d h fq)).1.report.result = "fail" ∧ b.runOutcome = RunOutcome.ok false) ∨
     ((InfraTest.execute b (InfraTest.init n d h fq)).1.report.result = "exec_fail" ∧ ∃ m, b.runOutcome = RunOutcome.fault m)) := by
  refine ⟨rfl, ?_⟩
  rcases b with ⟨bn, bd, bf, ro, fo, w, msg⟩
  cases ro with
  | ok passed =>
      cases passed
      · exact Or.inr (Or.inl ⟨by cases fo <;> cases msg <;> rfl, rfl⟩)
      · exact Or.inl ⟨by cases w <;> cases msg <;> rfl, rfl⟩
  | fault m => exact Or.inr (Or.inr ⟨by cases msg <;> rfl, m, rfl⟩)

/-- Claim C1 fails on the code: the `Stage.execute` loop overwrites its
stage-level `exit_code` variable, so a check that fails (exit-code-1)
followed by a check that passes with the warning flag set aggregates to
`3`, not `1`, while the reverse order gives `1`.  The per-check reports
confirm the first check really did fail.  (This contradicts the docstring
of `Stage.execute` itself, which reserves `3` for runs without
failures.) -/
theorem C1_stage_aggregation_is_order_dependent :
    (Stage.execute [{ name := "c1", description := "fails", fqdn := "h1", runOutcome := RunOutcome.ok false, failOutcome := FailOutcome.ok, warn := false, message := none }, { name := "c2", description := "warns", fqdn := "h2", runOutcome := RunOutcome.ok true, failOutcome := FailOutcome.ok, warn := true, message := some "disk 80% full" }]).1 = 3 ∧
    ((Stage.execute [{ name := "c1", description := "fails", fqdn := "h1", runOutcome := RunOutcome.ok false, failOutcome := FailOutcome.ok, warn := false, message := none }, { name := "c2", description := "warns", fqdn := "h2", runOutcome := RunOutcome.ok true, failOutcome := FailOutcome.ok, warn := true, message := some "disk 80% full" }]).2.map fun r => r.result) = ["fail", "pass"] ∧
    (Stage.execute [{ name := "c2", description := "warns", fqdn := "h2", runOutcome := RunOutcome.ok true, failOutcome := FailOutcome.ok, warn := true, message := some "disk 80% full" }, { name := "c1", description := "fails", fqdn := "h1", runOutcome := RunOutcome.ok false, failOutcome := FailOutcome.ok, warn := false, message := none }]).1 = 1 := by
  exact ⟨rfl, rfl, rfl⟩

/-- Claim C2 fails on the code: `Executor.run` only logs the registered
test names and never invokes any test, so `execute` leaves every
registered test's state exactly as it was and `post_process` aggregates
the tests' initial exit codes and reports.  In particular a freshly
constructed executor with one registered check whose `run()` would return
false reports aggregate result `pass` with exit code `0`, collecting the
check's untouched initial report. -/
theorem C2_executor_execute_never_runs_checks :
    (∀ (n : String) (tests : List InfraTestState),
       match Executor.execute PreOutcome.ok (mkExecutor n tests) with
       | Except.ok s2 => s2.infra_tests = tests
       | Except.error _ => False) ∧
    (match Executor.execute PreOutcome.ok (mkExecutor "e" [InfraTest.init "t" "d" "h" "fq"]) with
     | Except.ok s2 => s2.report.result = some "pass" ∧ s2.exit_code = 0 ∧ s2.report.reports = some [{ name := "t", description := "d", result := "fail" }]
     | Except.error _ => False) := by
  constructor
  · intro n tests
    show (Executor.post_process (Executor.run (mkExecutor n tests))).infra_tests = tests
    rw [Executor.post_process_infra_tests, mkExecutor_eq]
    rfl
  · exact ⟨rfl, rfl, rfl⟩

/-- Claim C6: both flavours of group aggregation can only ever yield an
exit code in `{0, 1, 3}` — the documented exit code `4` is never
produced, for any combination of member check outcomes or states. -/
theorem C6_exit_codes_only_0_1_3 :
    (∀ ts : List CheckBehavior,
       (Stage.execute ts).1 = 0 ∨ (Stage.execute ts).1 = 1 ∨ (Stage.execute ts).1 = 3) ∧
    (∀ (pre : PreOutcome) (n : String) (tests : List InfraTestState),
       match Executor.execute pre (mkExecutor n tests) with
       | Except.ok s2 => s2.exit_code = 0 ∨ s2.exit_code = 1 ∨ s2.exit_code = 3
       | Except.error _ => True) := by
  constructor
  · intro ts
    exact Stage.executeLoop_fst_mem ts 0 (Or.inl rfl)
  · intro pre n tests
    cases pre with
    | ok =>
        show (Executor.post_process (Executor.run (mkExecutor n tests))).exit_code = 0 ∨
          (Executor.post_process (Executor.run (mkExecutor n tests))).exit_code = 1 ∨
          (Executor.post_process (Executor.run (mkExecutor n tests))).exit_code = 3
        rcases Executor.post_process_exit_code (Executor.run (mkExecutor n tests)) with h1 | h1 | h1
        · left
          rw [h1, mkExecutor_eq]
          rfl
        · exact Or.inr (Or.inl h1)
        · exact Or.inr (Or.inr h1)
    | precondFault m =>
        rw [mkExecutor_eq]
        exact Or.inl rfl
    | otherFault m => trivial

end InfraValidation
